import Mathlib

/-!
Verification of the gradient-infill g-code post-processor
(CNCKitchen/GradientInfill).

The development shallowly embeds the line-processing pipeline of
`src/addGradientInfill.py` (and, where the Cura-plugin variant
`src/GradientInfill.py` diverges, the relevant branch of that file) into
Lean.  Machine floats are modelled as rationals; the square root produced
by Python's `** 0.5` is modelled by `sqrtQ`, which is exact whenever the
root is rational (every concrete input used below is chosen so that all
distances are rational).  Fallible Python code (exceptions) is modelled
with `Except`.  Emitted output is modelled structurally: the decimal
formatting performed by `round`/`str` when a line is printed is abstracted
to the exact rational values carried by the `OutLine` constructors.
-/

namespace GradientInfill

/-- A planar point, mirroring `Point2D = namedtuple('Point2D', 'x y')`. -/
structure Point2D where
  x : ℚ
  y : ℚ
deriving DecidableEq, Repr

/-- A segment, mirroring `Segment = namedtuple('Segment', 'point1 point2')`. -/
structure Segment where
  point1 : Point2D
  point2 : Point2D
deriving DecidableEq, Repr

/-- Mirrors `class InfillType(Enum)` (`SMALL_SEGMENTS = 1`, `LINEAR = 2`). -/
inductive InfillType where
  | smallSegments
  | linear
deriving DecidableEq, Repr

/-- Mirrors `class Section(Enum)` of `addGradientInfill.py`
(`NOTHING`, `INNER_WALL`, `INFILL`). -/
inductive Section where
  | nothing
  | innerWall
  | infill
deriving DecidableEq, Repr

/-- The Python exceptions the script can raise while processing lines:
`NameError` (unbound variable), `ValueError` (bad `float()` argument),
`SyntaxError` (the explicit `raise SyntaxError` branches),
`ZeroDivisionError`, and the `ValueError` raised by `min()` on an empty
sequence (kept as a separate constructor for clarity). -/
inductive Err where
  | nameErr
  | valueErr
  | badLine
  | divByZero
  | emptySeq
deriving DecidableEq, Repr

/-- The configuration parameters of `process_gcode`
(`infill_type`, `max_flow`, `min_flow`, `gradient_thickness`,
`gradient_discretization`); flows are percentages as in the source. -/
structure Cfg where
  infillType : InfillType
  maxFlow : ℚ
  minFlow : ℚ
  gradientThickness : ℚ
  gradientDiscretization : ℚ
deriving DecidableEq, Repr

/-- Newton iteration for the integer square root, with an explicit fuel
argument so that the recursion is structural. -/
def sqrtIter (n : Nat) : Nat → Nat → Nat
  | 0, guess => guess
  | fuel + 1, guess =>
    let next := (guess + n / guess) / 2
    if next < guess then sqrtIter n fuel next else guess

/-- Integer square root (rounded down), by Newton iteration. -/
def natSqrt (n : Nat) : Nat := if n ≤ 1 then n else sqrtIter n n (n / 2 + 1)

/-- Model of Python's `v ** 0.5` on a nonnegative rational: exact whenever
the square root of `q` is rational (numerator and denominator are then
perfect squares in lowest terms), an integer-square-root approximation
otherwise.  All concrete inputs used in the theorems below have rational
roots, on which this model agrees with the ideal square root. -/
def sqrtQ (q : ℚ) : ℚ := (natSqrt q.num.toNat : ℚ) / (natSqrt q.den : ℚ)

/-- Mirrors `dist(segment, point)` (`addGradientInfill.py` lines 51-74;
identical in `GradientInfill.py` lines 59-82).  The division by `norm` is
unguarded in the source: `norm == 0` raises `ZeroDivisionError`, modelled
by the `Err.divByZero` branch. -/
def dist (segment : Segment) (point : Point2D) : Except Err ℚ :=
  let px := segment.point2.x - segment.point1.x
  let py := segment.point2.y - segment.point1.y
  let norm := px * px + py * py
  if norm = 0 then Except.error Err.divByZero
  else
    let u0 := ((point.x - segment.point1.x) * px + (point.y - segment.point1.y) * py) / norm
    let u := if 1 < u0 then 1 else if u0 < 0 then 0 else u0
    let x := segment.point1.x + u * px
    let y := segment.point1.y + u * py
    let dx := x - point.x
    let dy := y - point.y
    Except.ok (sqrtQ (dx * dx + dy * dy))

/-- Mirrors `get_points_distance(point1, point2)` (lines 77-87). -/
def get_points_distance (point1 point2 : Point2D) : ℚ :=
  sqrtQ ((point1.x - point2.x) ^ 2 + (point1.y - point2.y) ^ 2)

/-- Evaluation of `min(dist(s, middlePoint) for s in segments)`: Python's
`min` raises `ValueError` on an empty sequence, and an exception raised by
any element propagates (elements are evaluated left to right). -/
def minDistAux (mid : Point2D) : List Segment → Except Err ℚ
  | [] => Except.error Err.emptySeq
  | [s] => dist s mid
  | s :: t :: rest =>
    match dist s mid with
    | Except.error e => Except.error e
    | Except.ok d =>
      match minDistAux mid (t :: rest) with
      | Except.error e => Except.error e
      | Except.ok m => Except.ok (min d m)

/-- Mirrors `min_distance_from_segment(segment, segments)` (lines 90-102). -/
def min_distance_from_segment (segment : Segment) (segments : List Segment) : Except Err ℚ :=
  let middlePoint : Point2D :=
    ⟨(segment.point1.x + segment.point2.x) / 2, (segment.point1.y + segment.point2.y) / 2⟩
  minDistAux middlePoint segments

/-- Whitespace characters stripped by Python's `float(str)`. -/
def isWs (c : Char) : Bool := c == ' ' || c == '\n' || c == '\t' || c == '\r'

/-- Numeric value of a digit string. -/
def natOfDigits (cs : List Char) : ℕ :=
  cs.foldl (fun acc c => 10 * acc + (c.toNat - 48)) 0

/-- Model of Python's `float(str)` restricted to the plain decimal forms
appearing in g-code fields: optional sign, digits, optional dot, digits,
with surrounding whitespace stripped (exponent and `inf`/`nan` forms do
not occur in the modelled g-code fragment).  `float("")` and `float(".")`
fail, exactly as in Python. -/
def parseDecimal (cs0 : List Char) : Option ℚ :=
  let cs1 := cs0.dropWhile isWs
  let cs := (cs1.reverse.dropWhile isWs).reverse
  let sb : ℚ × List Char :=
    match cs with
    | '-' :: rest => (-1, rest)
    | '+' :: rest => (1, rest)
    | _ => (1, cs)
  let d1 := sb.2.takeWhile Char.isDigit
  let rest1 := sb.2.drop d1.length
  match rest1 with
  | [] => if d1.isEmpty then none else some (sb.1 * (natOfDigits d1 : ℚ))
  | '.' :: rest2 =>
    let d2 := rest2.takeWhile Char.isDigit
    if rest2.drop d2.length ≠ [] then none
    else if d1.isEmpty ∧ d2.isEmpty then none
    else some (sb.1 * ((natOfDigits d1 : ℚ) + (natOfDigits d2 : ℚ) / (10 : ℚ) ^ d2.length))
  | _ => none

/-- The text matched by the capture group of the regex `\d*\.?\d*`
starting at a given position: greedy digits, an optional dot, greedy
digits.  The capture may be empty. -/
def digitsDotDigits (cs : List Char) : List Char :=
  let d1 := cs.takeWhile Char.isDigit
  let rest := cs.drop d1.length
  match rest with
  | '.' :: rest2 => d1 ++ '.' :: rest2.takeWhile Char.isDigit
  | _ => d1

/-- Model of `re.search(r"c(\d*\.?\d*)", line)` for a literal letter `c`:
the leftmost occurrence of `c` anchors the (possibly empty) capture. -/
def findCapture (c : Char) : List Char → Option (List Char)
  | [] => none
  | a :: rest => if a = c then some (digitsDotDigits rest) else findCapture c rest

/-- Mirrors `getXY(currentLine)` (lines 105-125) on the character list of
the line: both regex searches must succeed (else the explicit
`SyntaxError`), after which `float` is applied to each capture (an empty
capture, e.g. from a negative coordinate, raises `ValueError`). -/
def getXYChars (l : List Char) : Except Err Point2D :=
  match findCapture 'X' l, findCapture 'Y' l with
  | some ex, some ey =>
    match parseDecimal ex, parseDecimal ey with
    | some vx, some vy => Except.ok ⟨vx, vy⟩
    | _, _ => Except.error Err.valueErr
  | _, _ => Except.error Err.badLine

/-- Mirrors `getXY(currentLine)` on a string. -/
def getXY (currentLine : String) : Except Err Point2D :=
  getXYChars currentLine.toList

/-- Mirrors `mapRange(a, b, s)` (lines 128-145):
`b1 + ((s - a1) * (b2 - b1) / (a2 - a1))`. -/
def mapRange (a b : ℚ × ℚ) (s : ℚ) : ℚ :=
  b.1 + ((s - a.1) * (b.2 - b.1) / (a.2 - a.1))

/-- The flow multiplier as applied by the callers: `mapRange` over
`(0, gradient_thickness) → (maxFF, minFF)` when the distance is below the
thickness, and the minimum flow fraction otherwise (the
`shortestDistance < gradient_thickness` branches at lines 289-294 and
327-331). -/
def flowMultiplier (th maxFF minFF s : ℚ) : ℚ :=
  if s < th then mapRange (0, th) (maxFF, minFF) s else minFF

/-- Substring test on character lists (Python's `needle in line`). -/
def subList (n : List Char) : List Char → Bool
  | [] => n.isEmpty
  | c :: t => n.isPrefixOf (c :: t) || subList n t

/-- Python's `needle in line` for strings. -/
def hasSub (needle s : String) : Bool := subList needle.toList s.toList

/-- Python's `line.startswith(p)`. -/
def startsWithL (p s : String) : Bool := p.toList.isPrefixOf s.toList

/-- Mirrors `is_begin_layer_line` (lines 162-171). -/
def is_begin_layer_line (line : String) : Bool := startsWithL ";LAYER:" line

/-- Mirrors `is_begin_inner_wall_line` (lines 174-183). -/
def is_begin_inner_wall_line (line : String) : Bool := startsWithL ";TYPE:WALL-INNER" line

/-- Mirrors `is_end_inner_wall_line` (lines 186-195). -/
def is_end_inner_wall_line (line : String) : Bool := startsWithL ";TYPE:WALL-OUTER" line

/-- Mirrors `is_extrusion_line` (lines 198-207). -/
def is_extrusion_line (line : String) : Bool :=
  hasSub "G1" line && hasSub " X" line && hasSub "Y" line && hasSub "E" line

/-- Mirrors `is_begin_infill_segment_line` (lines 210-219). -/
def is_begin_infill_segment_line (line : String) : Bool := startsWithL ";TYPE:FILL" line

/-- Python's `line.split(" ")`: every single space delimits, empty pieces
are kept. -/
def splitAux (cur : List Char) : List Char → List (List Char)
  | [] => [cur.reverse]
  | c :: rest => if c = ' ' then cur.reverse :: splitAux [] rest else splitAux (c :: cur) rest

/-- Mirrors `currentLine.split(" ")`. -/
def splitLineTokens (line : String) : List String :=
  (splitAux [] line.toList).map String.mk

/-- Mirrors the extrusion-length scan (lines 271-273): every token
containing `E` is parsed with `float(element[1:])` (a parse failure
raises), the last parsed value wins, and referencing the variable with no
`E` token at all raises `NameError`. -/
def findExtrusion : List String → Option ℚ → Except Err ℚ
  | [], none => Except.error Err.nameErr
  | [], some v => Except.ok v
  | element :: rest, acc =>
    if element.toList.contains 'E' then
      match parseDecimal (element.toList.drop 1) with
      | some v => findExtrusion rest (some v)
      | none => Except.error Err.valueErr
    else findExtrusion rest acc

/-- A token of a rewritten line: either a replaced extrusion field
(`"E" + str(round(v, 5))`, value kept exactly) or a token copied from the
input (`element + " "`, spacing abstracted). -/
inductive Tok where
  | e (v : ℚ)
  | plain (s : String)
deriving DecidableEq, Repr

/-- One output line, structurally: a verbatim copy of the input line, a
normalized feed line (`"G1 F{}\n".format(group)`), a generated sub-move
(`get_extrusion_command(x, y, e)`, values kept exactly), or a
token-rewritten line. -/
inductive OutLine where
  | raw (s : String)
  | feedLine (g : List Char)
  | move (x y e : ℚ)
  | toks (ts : List Tok)
deriving DecidableEq, Repr

/-- Mirrors the short-move rewrite of `addGradientInfill.py`
(lines 309-317): the output line is accumulated token by token, every
token containing `E` being replaced by
`"E" + str(round(extrusionLength * max_flow / 100, 5))`. -/
def agiShortRewrite (max_flow extrusionLength : ℚ) : List String → List Tok → List Tok
  | [], acc => acc
  | element :: rest, acc =>
    if element.toList.contains 'E' then
      agiShortRewrite max_flow extrusionLength rest (acc ++ [Tok.e (extrusionLength * max_flow / 100)])
    else
      agiShortRewrite max_flow extrusionLength rest (acc ++ [Tok.plain element])

/-- Mirrors the short-move rewrite of `GradientInfill.py`
(lines 557-567): identical accumulation, but the replacement value is
`extrusionLength * link_flow / 100`, where `link_flow` is the dedicated
`shortdistflow` setting of the plugin. -/
def giShortLineRewrite (link_flow extrusionLength : ℚ) : List String → List Tok → List Tok
  | [], acc => acc
  | element :: rest, acc =>
    if element.toList.contains 'E' then
      giShortLineRewrite link_flow extrusionLength rest (acc ++ [Tok.e (extrusionLength * link_flow / 100)])
    else
      giShortLineRewrite link_flow extrusionLength rest (acc ++ [Tok.plain element])

/-- Mirrors `segmentSteps = segmentLength / gradientDiscretizationLength`
with `gradientDiscretizationLength = gradient_thickness /
gradient_discretization` (lines 234 and 274-275). -/
def segmentStepsOf (cfg : Cfg) (lastP curP : Point2D) : ℚ :=
  get_points_distance lastP curP / (cfg.gradientThickness / cfg.gradientDiscretization)

/-- Mirrors `segmentDirection` (lines 277-280). -/
def segmentDirectionOf (cfg : Cfg) (lastP curP : Point2D) : Point2D :=
  ⟨(curP.x - lastP.x) / get_points_distance lastP curP *
      (cfg.gradientThickness / cfg.gradientDiscretization),
    (curP.y - lastP.y) / get_points_distance lastP curP *
      (cfg.gradientThickness / cfg.gradientDiscretization)⟩

/-- Mirrors the stepped loop `for step in range(int(segmentSteps))`
(lines 282-298): each iteration advances by `segmentDirection`, computes
the sub-segment's midpoint distance to the perimeter, scales
`extrusionLengthPerSegment` by the interpolated or minimum flow, emits the
sub-move and updates `lastPosition`. -/
def linearSteps (ps : List Segment) (cfg : Cfg) (elps : ℚ) (dir : Point2D) :
    Nat → Point2D → Except Err (List OutLine × Point2D)
  | 0, pos => Except.ok ([], pos)
  | Nat.succ n, pos =>
    let segmentEnd : Point2D := ⟨pos.x + dir.x, pos.y + dir.y⟩
    match min_distance_from_segment ⟨pos, segmentEnd⟩ ps with
    | Except.error e => Except.error e
    | Except.ok shortestDistance =>
      let segmentExtrusion :=
        if shortestDistance < cfg.gradientThickness then
          elps * mapRange (0, cfg.gradientThickness) (cfg.maxFlow / 100, cfg.minFlow / 100)
            shortestDistance
        else elps * cfg.minFlow / 100
      match linearSteps ps cfg elps dir n segmentEnd with
      | Except.error e => Except.error e
      | Except.ok (outs, fin) =>
        Except.ok (OutLine.move segmentEnd.x segmentEnd.y segmentExtrusion :: outs, fin)

/-- Mirrors the whole `InfillType.LINEAR` branch (lines 269-318):
`segmentSteps == 0` makes `extrusionLength / segmentSteps` raise
`ZeroDivisionError`; with `segmentSteps >= 2` the move is subdivided and
closed by the corrective sub-move
`segmentLengthRatio * extrusionLength * max_flow / 100` (lines 299-308);
otherwise the single-line short-move rewrite applies.  Referencing
`perimeterSegments` before any layer marker raises `NameError`. -/
def linearProcess (cfg : Cfg) (perim : Option (List Segment)) (lastP curP : Point2D)
    (extrusionLength : ℚ) (splitL : List String) : Except Err (List OutLine × Point2D) :=
  let segmentSteps := segmentStepsOf cfg lastP curP
  if segmentSteps = 0 then Except.error Err.divByZero
  else
    let extrusionLengthPerSegment := extrusionLength / segmentSteps
    if 2 ≤ segmentSteps then
      match perim with
      | none => Except.error Err.nameErr
      | some ps =>
        match linearSteps ps cfg extrusionLengthPerSegment (segmentDirectionOf cfg lastP curP)
            segmentSteps.floor.toNat lastP with
        | Except.error e => Except.error e
        | Except.ok (outs, newPos) =>
          Except.ok
            (outs ++ [OutLine.move curP.x curP.y
              (get_points_distance newPos curP / get_points_distance lastP curP *
                extrusionLength * cfg.maxFlow / 100)], newPos)
    else
      Except.ok ([OutLine.toks (agiShortRewrite cfg.maxFlow extrusionLength splitL [])], lastP)

/-- Mirrors the `InfillType.SMALL_SEGMENTS` branch (lines 321-338): the
midpoint distance of the whole move decides; below the thickness every
`E` token is rescaled by `mapRange` and the rewritten line is emitted
(`writtenToFile = 1`), otherwise nothing is written here. -/
def smallProcess (cfg : Cfg) (perim : Option (List Segment)) (lastP curP : Point2D)
    (splitL : List String) : Except Err (List OutLine × Bool) :=
  match perim with
  | none => Except.error Err.nameErr
  | some ps =>
    match min_distance_from_segment ⟨lastP, curP⟩ ps with
    | Except.error e => Except.error e
    | Except.ok shortestDistance =>
      if shortestDistance < cfg.gradientThickness then
        match splitL.mapM (fun element =>
            if element.toList.contains 'E' then
              match parseDecimal (element.toList.drop 1) with
              | some v =>
                Except.ok (Tok.e (v * mapRange (0, cfg.gradientThickness)
                  (cfg.maxFlow / 100, cfg.minFlow / 100) shortestDistance))
              | none => (Except.error Err.valueErr : Except Err Tok)
            else Except.ok (Tok.plain element)) with
        | Except.error e => Except.error e
        | Except.ok ts => Except.ok ([OutLine.toks ts], true)
      else Except.ok ([], false)

/-- The mutable per-run state of `process_gcode`: `currentSection`,
`lastPosition`, and `perimeterSegments` (which is an unbound Python
variable, modelled as `none`, until the first layer marker). -/
structure PState where
  sec : Section
  lastPos : Point2D
  perim : Option (List Segment)
deriving DecidableEq, Repr

/-- Mirrors the inner-wall collection (lines 245-246): while in the inner
wall section, every extrusion line appends
`Segment(getXY(currentLine), lastPosition)`. -/
def collectWall (sec1 : Section) (perim0 : Option (List Segment)) (lastPos : Point2D)
    (line : String) : Except Err (Option (List Segment)) :=
  if sec1 = Section.innerWall ∧ is_extrusion_line line then
    match perim0 with
    | none => Except.error Err.nameErr
    | some ps =>
      match getXY line with
      | Except.error e => Except.error e
      | Except.ok p => Except.ok (some (ps ++ [⟨p, lastPos⟩]))
  else Except.ok perim0

/-- Mirrors the body of `if currentSection == Section.INFILL:`
(lines 256-338): the feed normalization, then the extrusion-move handling
dispatched on the infill type.  Returns the emitted lines, the
`writtenToFile` flag, and the possibly loop-updated `lastPosition`. -/
def infillBlock (cfg : Cfg) (perim : Option (List Segment)) (lastPos : Point2D)
    (line : String) : Except Err (List OutLine × Bool × Point2D) :=
  match (if hasSub "F" line && hasSub "G1" line then
      match findCapture 'F' line.toList with
      | some g => Except.ok [OutLine.feedLine g]
      | none => (Except.error Err.badLine : Except Err (List OutLine))
    else Except.ok []) with
  | Except.error e => Except.error e
  | Except.ok outsF =>
    if hasSub "E" line && hasSub "G1" line && hasSub " X" line && hasSub "Y" line then
      match getXY line with
      | Except.error e => Except.error e
      | Except.ok currentPosition =>
        let splitL := splitLineTokens line
        match cfg.infillType with
        | InfillType.linear =>
          match findExtrusion splitL none with
          | Except.error e => Except.error e
          | Except.ok extrusionLength =>
            match linearProcess cfg perim lastPos currentPosition extrusionLength splitL with
            | Except.error e => Except.error e
            | Except.ok (outs, pos) => Except.ok (outsF ++ outs, true, pos)
        | InfillType.smallSegments =>
          match smallProcess cfg perim lastPos currentPosition splitL with
          | Except.error e => Except.error e
          | Except.ok (outs, w) => Except.ok (outsF ++ outs, w, lastPos)
    else Except.ok (outsF, false, lastPos)

/-- Mirrors one iteration of the main loop of `process_gcode`
(lines 237-348): layer reset, section transitions, wall collection, the
infill-begin early `continue`, the infill block, the comment-ends-infill
rule, the last-position update, and the final verbatim write when
`writtenToFile == 0`. -/
def processLine (cfg : Cfg) (st : PState) (line : String) :
    Except Err (PState × List OutLine) :=
  let perim0 := if is_begin_layer_line line then some ([] : List Segment) else st.perim
  let sec1 := if is_begin_inner_wall_line line then Section.innerWall else st.sec
  match collectWall sec1 perim0 st.lastPos line with
  | Except.error e => Except.error e
  | Except.ok perim1 =>
    let sec2 := if is_end_inner_wall_line line then Section.nothing else sec1
    if is_begin_infill_segment_line line then
      Except.ok ({ sec := Section.infill, lastPos := st.lastPos, perim := perim1 },
        [OutLine.raw line])
    else
      match (if sec2 = Section.infill then infillBlock cfg perim1 st.lastPos line
        else Except.ok ([], false, st.lastPos)) with
      | Except.error e => Except.error e
      | Except.ok (outs1, written, posMid) =>
        let sec3 := if sec2 = Section.infill ∧ hasSub ";" line then Section.nothing else sec2
        match (if hasSub " X" line && hasSub " Y" line && (hasSub "G1" line || hasSub "G0" line)
            then getXY line else Except.ok posMid) with
        | Except.error e => Except.error e
        | Except.ok lastPos2 =>
          Except.ok ({ sec := sec3, lastPos := lastPos2, perim := perim1 },
            outs1 ++ if written then [] else [OutLine.raw line])

/-- Folds `processLine` over the input lines, concatenating output. -/
def processLines (cfg : Cfg) : PState → List String → Except Err (List OutLine)
  | _, [] => Except.ok []
  | st, l :: ls =>
    match processLine cfg st l with
    | Except.error e => Except.error e
    | Except.ok (st', outs) =>
      match processLines cfg st' ls with
      | Except.error e => Except.error e
      | Except.ok rest => Except.ok (outs ++ rest)

/-- The initial state of `process_gcode` (lines 232-233). -/
def initialState : PState :=
  { sec := Section.nothing, lastPos := ⟨-10000, -10000⟩, perim := none }

/-- Mirrors `process_gcode` on an in-memory list of lines; computing
`gradientDiscretizationLength` raises `ZeroDivisionError` up front when
the discretization is zero. -/
def process_gcode (cfg : Cfg) (lines : List String) : Except Err (List OutLine) :=
  if cfg.gradientDiscretization = 0 then Except.error Err.divByZero
  else processLines cfg initialState lines

/-- Whether an `Except` computation succeeded. -/
def exceptOk {α : Type} : Except Err α → Bool
  | Except.ok _ => true
  | Except.error _ => false

/-- A small-segments configuration with the script's stock parameters. -/
def cfgSmall : Cfg :=
  { infillType := InfillType.smallSegments, maxFlow := 350, minFlow := 50,
    gradientThickness := 4, gradientDiscretization := 4 }

/-- A linear configuration used in the concrete runs below. -/
def cfgLinear : Cfg :=
  { infillType := InfillType.linear, maxFlow := 200, minFlow := 50,
    gradientThickness := 4, gradientDiscretization := 4 }

/-- A linear configuration with the stock 350/50 flows. -/
def cfgLinear350 : Cfg :=
  { infillType := InfillType.linear, maxFlow := 350, minFlow := 50,
    gradientThickness := 4, gradientDiscretization := 4 }

/-- A vertical wall segment, far enough from the sample moves that all
midpoint distances are rational. -/
def wallSeg : Segment := ⟨⟨10, 0⟩, ⟨10, 10⟩⟩

/-! ## Claim C1 -/

/-- C1, counterexample.  The claim states that an infill extrusion move
met while the layer's perimeter set is empty is passed through unmodified
and the run continues.  In fact `min()` over the empty perimeter sequence
raises `ValueError`: on a layer with no walls the first infill extrusion
move aborts the whole run. -/
theorem c1_counterexample :
    process_gcode cfgSmall [";LAYER:0", ";TYPE:FILL", "G1 X1 Y2 E0.5"] =
      Except.error Err.emptySeq := by
  with_unfolding_all rfl

/-- C1, amended.  When the perimeter set is empty, the distance query
itself is fatal: `min_distance_from_segment` evaluates `min()` over an
empty sequence and raises, so the move is not passed through and the run
aborts. -/
theorem c1_amended (seg : Segment) :
    min_distance_from_segment seg [] = Except.error Err.emptySeq := rfl

/-! ## Claim C2 -/

/-- C2, counterexample.  The claim states that `dist` guards the
zero-projection denominator and treats a zero-length segment as a point.
In fact the division by `norm` is unguarded: on the degenerate segment
from `(1,1)` to `(1,1)` the query faults with `ZeroDivisionError` instead
of returning the point-to-point distance. -/
theorem c2_counterexample :
    dist ⟨⟨1, 1⟩, ⟨1, 1⟩⟩ ⟨0, 0⟩ = Except.error Err.divByZero := by
  with_unfolding_all rfl

/-- C2, amended.  For every zero-length segment (both endpoints equal) and
every query point, the projection denominator `norm` is zero and the
unguarded division makes `dist` raise `ZeroDivisionError`; no
point-to-point fallback exists. -/
theorem c2_amended (p q : Point2D) : dist ⟨p, p⟩ q = Except.error Err.divByZero := by
  simp [dist, sub_self]

/-! ## Claim C3 -/

/-- C3: with positive thickness and flow fractions `0 ≤ minFF ≤ maxFF`,
the flow multiplier (`mapRange` composed with the callers'
`distance < thickness` branch) equals `maxFF` at distance `0`, equals
`minFF` at distance `thickness`, is monotonically non-increasing on
`[0, thickness]`, and is constantly `minFF` for every distance at or
beyond `thickness`. -/
theorem c3_flow_profile (th maxFF minFF : ℚ) (hth : 0 < th) (_hmin : 0 ≤ minFF)
    (hmm : minFF ≤ maxFF) :
    flowMultiplier th maxFF minFF 0 = maxFF ∧
    flowMultiplier th maxFF minFF th = minFF ∧
    (∀ s t : ℚ, 0 ≤ s → s ≤ t → t ≤ th →
      flowMultiplier th maxFF minFF t ≤ flowMultiplier th maxFF minFF s) ∧
    (∀ s : ℚ, th ≤ s → flowMultiplier th maxFF minFF s = minFF) := by
  have hval : ∀ u : ℚ, u < th →
      flowMultiplier th maxFF minFF u = maxFF + u * (minFF - maxFF) / th := by
    intro u hu
    unfold flowMultiplier mapRange
    rw [if_pos hu]
    norm_num
  have hbeyond : ∀ u : ℚ, th ≤ u → flowMultiplier th maxFF minFF u = minFF := by
    intro u hu
    unfold flowMultiplier
    rw [if_neg (not_lt.mpr hu)]
  refine ⟨?_, hbeyond th le_rfl, ?_, hbeyond⟩
  · rw [hval 0 hth]
    simp
  · intro s t hs hst htth
    by_cases hT : t < th
    · have hS : s < th := lt_of_le_of_lt hst hT
      rw [hval t hT, hval s hS]
      have key : t * (minFF - maxFF) / th ≤ s * (minFF - maxFF) / th := by
        rw [div_le_div_iff₀ hth hth]
        nlinarith [mul_nonneg (mul_nonneg (sub_nonneg.mpr hst) (sub_nonneg.mpr hmm)) hth.le]
      linarith
    · rw [hbeyond t (not_lt.mp hT)]
      by_cases hS : s < th
      · rw [hval s hS]
        rw [← sub_le_iff_le_add']
        rw [le_div_iff₀ hth]
        nlinarith [mul_nonneg (sub_nonneg.mpr hmm) (sub_nonneg.mpr hS.le)]
      · rw [hbeyond s (not_lt.mp hS)]

/-- C3, witness at thickness `4`, flow fractions `2` (200 percent) and
`1/2` (50 percent). -/
theorem c3_flow_profile_witness :
    (0 : ℚ) < 4 ∧ (0 : ℚ) ≤ 1 / 2 ∧ (1 / 2 : ℚ) ≤ 2 ∧
    (flowMultiplier 4 2 (1 / 2) 0 = 2 ∧
     flowMultiplier 4 2 (1 / 2) 4 = 1 / 2 ∧
     (∀ s t : ℚ, 0 ≤ s → s ≤ t → t ≤ 4 →
       flowMultiplier 4 2 (1 / 2) t ≤ flowMultiplier 4 2 (1 / 2) s) ∧
     (∀ s : ℚ, 4 ≤ s → flowMultiplier 4 2 (1 / 2) s = 1 / 2)) :=
  ⟨by norm_num, by norm_num, by norm_num,
    c3_flow_profile 4 2 (1 / 2) (by norm_num) (by norm_num) (by norm_num)⟩

/-! ## Claim C10 -/

/-- C10: in LINEAR mode, a move whose target equals the last known
position has `segmentLength = 0`, hence `segmentSteps = 0`, and
`extrusionLength / segmentSteps` raises `ZeroDivisionError`: the linear
branch faults for every configuration, perimeter set, extrusion value and
token list, and a full `processLine` on such a move aborts without
emitting anything. -/
theorem c10_zero_length_move :
    (∀ (cfg : Cfg) (perim : Option (List Segment)) (p : Point2D) (E : ℚ)
        (toks : List String),
      linearProcess cfg perim p p E toks = Except.error Err.divByZero) ∧
    processLine cfgLinear ⟨Section.infill, ⟨5, 5⟩, some [wallSeg]⟩ "G1 X5 Y5 E1" =
      Except.error Err.divByZero := by
  constructor
  · intro cfg perim p E toks
    have hzero : sqrtQ 0 = 0 := by with_unfolding_all rfl
    have h0 : get_points_distance p p = 0 := by
      unfold get_points_distance
      rw [sub_self, sub_self]
      norm_num [hzero]
    simp only [linearProcess, segmentStepsOf, h0, zero_div, if_pos]
  · with_unfolding_all rfl

/-! ## Claims C4 and C5: the stepped loop of the linear subdivider -/

/-- The per-step extrusion expression of the loop body equals the
per-segment extrusion times the composed flow multiplier. -/
lemma flowMultiplier_step (cfg : Cfg) (elps d : ℚ) :
    (if d < cfg.gradientThickness then
       elps * mapRange (0, cfg.gradientThickness) (cfg.maxFlow / 100, cfg.minFlow / 100) d
     else elps * cfg.minFlow / 100) =
    elps * flowMultiplier cfg.gradientThickness (cfg.maxFlow / 100) (cfg.minFlow / 100) d := by
  unfold flowMultiplier
  by_cases h : d < cfg.gradientThickness
  · rw [if_pos h, if_pos h]
  · rw [if_neg h, if_neg h, mul_div_assoc]

/-- Every sub-move emitted by the stepped loop is a `move` whose extrusion
is the per-segment extrusion scaled by the flow multiplier at the distance
of some queried sub-segment. -/
lemma linearSteps_mem (ps : List Segment) (cfg : Cfg) (elps : ℚ) (dir : Point2D) :
    ∀ (n : Nat) (pos : Point2D) (outs : List OutLine) (fin : Point2D),
      linearSteps ps cfg elps dir n pos = Except.ok (outs, fin) →
      ∀ o ∈ outs, ∃ a b d, min_distance_from_segment ⟨a, b⟩ ps = Except.ok d ∧
        o = OutLine.move b.x b.y
          (elps * flowMultiplier cfg.gradientThickness (cfg.maxFlow / 100) (cfg.minFlow / 100) d) := by
  intro n
  induction n with
  | zero =>
    intro pos outs fin h o ho
    simp only [linearSteps, Except.ok.injEq, Prod.mk.injEq] at h
    rw [← h.1] at ho
    simp at ho
  | succ n ih =>
    intro pos outs fin h o ho
    simp only [linearSteps] at h
    cases hmd : min_distance_from_segment ⟨pos, ⟨pos.x + dir.x, pos.y + dir.y⟩⟩ ps with
    | error e => rw [hmd] at h; exact Except.noConfusion h
    | ok sd =>
      rw [hmd] at h
      cases hrec : linearSteps ps cfg elps dir n ⟨pos.x + dir.x, pos.y + dir.y⟩ with
      | error e => rw [hrec] at h; exact Except.noConfusion h
      | ok pr =>
        obtain ⟨outs', fin'⟩ := pr
        rw [hrec] at h
        simp only [Except.ok.injEq, Prod.mk.injEq] at h
        rw [← h.1] at ho
        rcases List.mem_cons.mp ho with hhead | htail
        · refine ⟨pos, ⟨pos.x + dir.x, pos.y + dir.y⟩, sd, hmd, ?_⟩
          rw [hhead, flowMultiplier_step]
        · exact ih ⟨pos.x + dir.x, pos.y + dir.y⟩ outs' fin' hrec o htail

/-- C4, counterexample.  With thickness 4, discretization 4 (step length
1), a move of length `5/2` carrying `E = 1` and a wall far away: the loop
runs `floor(5/2) = 2` times and each stepped sub-move carries extrusion
`(E / (5/2)) * (minFlow/100) = 1/5`, where the claim predicts
`(E / 2) * (1/2) = 1/4`: the divisor is the real-valued step ratio, not
the integer floor. -/
theorem c4_counterexample :
    linearProcess cfgLinear (some [wallSeg]) ⟨0, 0⟩ ⟨5 / 2, 0⟩ 1 ["G1", "X2.5", "Y0", "E1"] =
      Except.ok ([OutLine.move 1 0 (1 / 5), OutLine.move 2 0 (1 / 5),
        OutLine.move (5 / 2) 0 (2 / 5)], ⟨2, 0⟩) ∧
    segmentStepsOf cfgLinear ⟨0, 0⟩ ⟨5 / 2, 0⟩ = 5 / 2 ∧
    (segmentStepsOf cfgLinear ⟨0, 0⟩ ⟨5 / 2, 0⟩).floor.toNat = 2 ∧
    min_distance_from_segment ⟨⟨0, 0⟩, ⟨1, 0⟩⟩ [wallSeg] = Except.ok (19 / 2) ∧
    flowMultiplier cfgLinear.gradientThickness (cfgLinear.maxFlow / 100)
      (cfgLinear.minFlow / 100) (19 / 2) = 1 / 2 ∧
    (1 : ℚ) / 5 ≠ 1 / 2 * (1 / 2) := by
  refine ⟨?_, ?_, ?_, ?_, ?_, ?_⟩
  · with_unfolding_all rfl
  · with_unfolding_all rfl
  · with_unfolding_all rfl
  · with_unfolding_all rfl
  · with_unfolding_all rfl
  · norm_num

/-- C4, amended.  For a subdivided linear move (`segmentSteps ≥ 2`), every
stepped sub-move carries extrusion
`(E / segmentSteps) * flowMultiplier` at its sub-segment's midpoint
distance, where `segmentSteps = segmentLength / stepLength` is the
real-valued ratio; the number of emitted sub-moves is its integer floor,
but the divisor is not the floor. -/
theorem c4_amended (cfg : Cfg) (perim : List Segment) (lastP curP : Point2D) (E : ℚ)
    (toks : List String) (outs : List OutLine) (fin : Point2D)
    (hsteps : 2 ≤ segmentStepsOf cfg lastP curP)
    (hrun : linearProcess cfg (some perim) lastP curP E toks = Except.ok (outs, fin)) :
    ∃ stepped corrective, outs = stepped ++ [corrective] ∧
      ∀ o ∈ stepped, ∃ a b d, min_distance_from_segment ⟨a, b⟩ perim = Except.ok d ∧
        o = OutLine.move b.x b.y
          (E / segmentStepsOf cfg lastP curP *
            flowMultiplier cfg.gradientThickness (cfg.maxFlow / 100) (cfg.minFlow / 100) d) := by
  have hne : segmentStepsOf cfg lastP curP ≠ 0 := by
    intro h
    rw [h] at hsteps
    norm_num at hsteps
  simp only [linearProcess] at hrun
  rw [if_neg hne, if_pos hsteps] at hrun
  cases hls : linearSteps perim cfg (E / segmentStepsOf cfg lastP curP)
      (segmentDirectionOf cfg lastP curP) (segmentStepsOf cfg lastP curP).floor.toNat lastP with
  | error e => rw [hls] at hrun; exact Except.noConfusion hrun
  | ok pr =>
    obtain ⟨so, np⟩ := pr
    rw [hls] at hrun
    simp only [Except.ok.injEq, Prod.mk.injEq] at hrun
    refine ⟨so, _, hrun.1.symm, ?_⟩
    intro o ho
    exact linearSteps_mem perim cfg (E / segmentStepsOf cfg lastP curP)
      (segmentDirectionOf cfg lastP curP) (segmentStepsOf cfg lastP curP).floor.toNat lastP
      so np hls o ho

/-- C4 amended, witness on the `5/2`-length concrete move. -/
theorem c4_amended_witness :
    2 ≤ segmentStepsOf cfgLinear ⟨0, 0⟩ ⟨5 / 2, 0⟩ ∧
    (∃ stepped corrective,
      ([OutLine.move 1 0 (1 / 5), OutLine.move 2 0 (1 / 5), OutLine.move (5 / 2) 0 (2 / 5)]
        : List OutLine) = stepped ++ [corrective] ∧
      ∀ o ∈ stepped, ∃ a b d, min_distance_from_segment ⟨a, b⟩ [wallSeg] = Except.ok d ∧
        o = OutLine.move b.x b.y
          (1 / segmentStepsOf cfgLinear ⟨0, 0⟩ ⟨5 / 2, 0⟩ *
            flowMultiplier cfgLinear.gradientThickness (cfgLinear.maxFlow / 100)
              (cfgLinear.minFlow / 100) d)) := by
  have hsteps : 2 ≤ segmentStepsOf cfgLinear ⟨0, 0⟩ ⟨5 / 2, 0⟩ := by
    rw [(by with_unfolding_all rfl : segmentStepsOf cfgLinear ⟨0, 0⟩ ⟨5 / 2, 0⟩ = 5 / 2)]
    norm_num
  exact ⟨hsteps, c4_amended cfgLinear [wallSeg] ⟨0, 0⟩ ⟨5 / 2, 0⟩ 1 ["G1", "X2.5", "Y0", "E1"]
    _ ⟨2, 0⟩ hsteps (by with_unfolding_all rfl)⟩

/-- C5: for every subdivided linear move (`segmentSteps ≥ 2`), the output
is the stepped sub-moves followed by exactly one corrective sub-move
targeting `currentPosition`, whose extrusion is
`remainingLengthRatio * E * max_flow / 100` — the maximum flow fraction,
with no dependence on any distance-to-wall query. -/
theorem c5_corrective (cfg : Cfg) (perim : List Segment) (lastP curP : Point2D) (E : ℚ)
    (toks : List String) (outs : List OutLine) (fin : Point2D)
    (hsteps : 2 ≤ segmentStepsOf cfg lastP curP)
    (hrun : linearProcess cfg (some perim) lastP curP E toks = Except.ok (outs, fin)) :
    ∃ stepped,
      linearSteps perim cfg (E / segmentStepsOf cfg lastP curP)
        (segmentDirectionOf cfg lastP curP) (segmentStepsOf cfg lastP curP).floor.toNat lastP =
        Except.ok (stepped, fin) ∧
      outs = stepped ++ [OutLine.move curP.x curP.y
        (get_points_distance fin curP / get_points_distance lastP curP * E *
          cfg.maxFlow / 100)] := by
  have hne : segmentStepsOf cfg lastP curP ≠ 0 := by
    intro h
    rw [h] at hsteps
    norm_num at hsteps
  simp only [linearProcess] at hrun
  rw [if_neg hne, if_pos hsteps] at hrun
  cases hls : linearSteps perim cfg (E / segmentStepsOf cfg lastP curP)
      (segmentDirectionOf cfg lastP curP) (segmentStepsOf cfg lastP curP).floor.toNat lastP with
  | error e => rw [hls] at hrun; exact Except.noConfusion hrun
  | ok pr =>
    obtain ⟨so, np⟩ := pr
    rw [hls] at hrun
    simp only [Except.ok.injEq, Prod.mk.injEq] at hrun
    refine ⟨so, ?_, ?_⟩
    · rw [hrun.2]
    · rw [← hrun.1, ← hrun.2]

/-- C5, witness on a length-4 concrete move subdivided into 4 steps; the
corrective move targets `(4,0)` with extrusion
`0 * 1 * maxFlow / 100 = 0`. -/
theorem c5_corrective_witness :
    2 ≤ segmentStepsOf cfgLinear ⟨0, 0⟩ ⟨4, 0⟩ ∧
    (∃ stepped,
      linearSteps [wallSeg] cfgLinear (1 / segmentStepsOf cfgLinear ⟨0, 0⟩ ⟨4, 0⟩)
        (segmentDirectionOf cfgLinear ⟨0, 0⟩ ⟨4, 0⟩)
        (segmentStepsOf cfgLinear ⟨0, 0⟩ ⟨4, 0⟩).floor.toNat ⟨0, 0⟩ =
        Except.ok (stepped, ⟨4, 0⟩) ∧
      ([OutLine.move 1 0 (1 / 8), OutLine.move 2 0 (1 / 8), OutLine.move 3 0 (1 / 8),
        OutLine.move 4 0 (1 / 8), OutLine.move 4 0 0] : List OutLine) =
        stepped ++ [OutLine.move 4 0
          (get_points_distance ⟨4, 0⟩ ⟨4, 0⟩ / get_points_distance ⟨0, 0⟩ ⟨4, 0⟩ * 1 *
            cfgLinear.maxFlow / 100)]) := by
  have hsteps : 2 ≤ segmentStepsOf cfgLinear ⟨0, 0⟩ ⟨4, 0⟩ := by
    rw [(by with_unfolding_all rfl : segmentStepsOf cfgLinear ⟨0, 0⟩ ⟨4, 0⟩ = 4)]
    norm_num
  exact ⟨hsteps, c5_corrective cfgLinear [wallSeg] ⟨0, 0⟩ ⟨4, 0⟩ 1 ["G1", "X4", "Y0", "E1"]
    _ ⟨4, 0⟩ hsteps (by with_unfolding_all rfl)⟩

/-! ## Claim C6: the short-move (no-subdivision) branch -/

/-- Closed form of the standalone script's short-move accumulation: every
`E` token becomes `extrusionLength * max_flow / 100`, all other tokens are
copied. -/
lemma agiShortRewrite_eq (mf E : ℚ) :
    ∀ (l : List String) (acc : List Tok),
      agiShortRewrite mf E l acc =
        acc ++ l.map (fun el =>
          if el.toList.contains 'E' then Tok.e (E * mf / 100) else Tok.plain el) := by
  intro l
  induction l with
  | nil => intro acc; simp [agiShortRewrite]
  | cons element rest ih =>
    intro acc
    simp only [agiShortRewrite, List.map]
    by_cases h : element.toList.contains 'E' = true
    · rw [if_pos h, if_pos h, ih]
      simp
    · rw [if_neg h, if_neg h, ih]
      simp

/-- Closed form of the Cura plugin's short-move accumulation: every `E`
token becomes `extrusionLength * link_flow / 100`, all other tokens are
copied. -/
lemma giShortLineRewrite_eq (lf E : ℚ) :
    ∀ (l : List String) (acc : List Tok),
      giShortLineRewrite lf E l acc =
        acc ++ l.map (fun el =>
          if el.toList.contains 'E' then Tok.e (E * lf / 100) else Tok.plain el) := by
  intro l
  induction l with
  | nil => intro acc; simp [giShortLineRewrite]
  | cons element rest ih =>
    intro acc
    simp only [giShortLineRewrite, List.map]
    by_cases h : element.toList.contains 'E' = true
    · rw [if_pos h, if_pos h, ih]
      simp
    · rw [if_neg h, if_neg h, ih]
      simp

/-- C6, counterexample.  The claim says a too-short linear move is scaled
by a dedicated short-distance flow fraction distinct from the max and min
flows.  In the standalone script the scale factor is `max_flow / 100`
itself: with `max_flow = 350`, `min_flow = 50` and `E = 1`, the rewritten
extrusion is `7/2 = 1 * (max_flow / 100)` — the script has no separate
short-distance setting. -/
theorem c6_counterexample :
    linearProcess cfgLinear350 (some [wallSeg]) ⟨0, 0⟩ ⟨1, 0⟩ 1 ["G1", "X1", "Y0", "E1"] =
      Except.ok ([OutLine.toks [Tok.plain "G1", Tok.plain "X1", Tok.plain "Y0",
        Tok.e (7 / 2)]], ⟨0, 0⟩) ∧
    (7 : ℚ) / 2 = 1 * (cfgLinear350.maxFlow / 100) ∧
    cfgLinear350.maxFlow ≠ cfgLinear350.minFlow := by
  refine ⟨?_, ?_, ?_⟩
  · with_unfolding_all rfl
  · norm_num [cfgLinear350]
  · norm_num [cfgLinear350]

/-- C6, amended.  A linear move with `segmentSteps < 2` (and nonzero
steps) is rewritten as a single line with all non-`E` tokens preserved; in
the standalone script (`addGradientInfill.py`) every `E` token is scaled
by `max_flow / 100` (there is no dedicated short-distance flow setting),
while the Cura plugin variant (`GradientInfill.py`) scales by its
dedicated `link_flow / 100` short-distance setting. -/
theorem c6_amended :
    (∀ (cfg : Cfg) (perim : Option (List Segment)) (lastP curP : Point2D) (E : ℚ)
        (toks : List String),
      segmentStepsOf cfg lastP curP ≠ 0 →
      segmentStepsOf cfg lastP curP < 2 →
      linearProcess cfg perim lastP curP E toks =
        Except.ok ([OutLine.toks (toks.map (fun el =>
          if el.toList.contains 'E' then Tok.e (E * cfg.maxFlow / 100) else Tok.plain el))],
          lastP)) ∧
    (∀ (lf E : ℚ) (toks : List String),
      giShortLineRewrite lf E toks [] = toks.map (fun el =>
        if el.toList.contains 'E' then Tok.e (E * lf / 100) else Tok.plain el)) := by
  constructor
  · intro cfg perim lastP curP E toks hne hlt
    simp only [linearProcess]
    rw [if_neg hne, if_neg (not_le.mpr hlt)]
    rw [agiShortRewrite_eq]
    simp
  · intro lf E toks
    rw [giShortLineRewrite_eq]
    simp

/-- C6 amended, witness: the concrete length-1 move under the standalone
script, and a two-token line under the plugin's dedicated 120 percent
short-distance flow. -/
theorem c6_amended_witness :
    (segmentStepsOf cfgLinear350 ⟨0, 0⟩ ⟨1, 0⟩ ≠ 0 ∧
     segmentStepsOf cfgLinear350 ⟨0, 0⟩ ⟨1, 0⟩ < 2 ∧
     linearProcess cfgLinear350 (some [wallSeg]) ⟨0, 0⟩ ⟨1, 0⟩ 1 ["G1", "X1", "Y0", "E1"] =
       Except.ok ([OutLine.toks (["G1", "X1", "Y0", "E1"].map (fun el =>
         if el.toList.contains 'E' then Tok.e (1 * cfgLinear350.maxFlow / 100)
         else Tok.plain el))], ⟨0, 0⟩)) ∧
    giShortLineRewrite 120 1 ["G1", "E1"] [] = ["G1", "E1"].map (fun el =>
      if el.toList.contains 'E' then Tok.e (1 * 120 / 100) else Tok.plain el) := by
  have hne : segmentStepsOf cfgLinear350 ⟨0, 0⟩ ⟨1, 0⟩ ≠ 0 := by
    rw [(by with_unfolding_all rfl : segmentStepsOf cfgLinear350 ⟨0, 0⟩ ⟨1, 0⟩ = 1)]
    norm_num
  have hlt : segmentStepsOf cfgLinear350 ⟨0, 0⟩ ⟨1, 0⟩ < 2 := by
    rw [(by with_unfolding_all rfl : segmentStepsOf cfgLinear350 ⟨0, 0⟩ ⟨1, 0⟩ = 1)]
    norm_num
  exact ⟨⟨hne, hlt,
    c6_amended.1 cfgLinear350 (some [wallSeg]) ⟨0, 0⟩ ⟨1, 0⟩ 1 ["G1", "X1", "Y0", "E1"] hne hlt⟩,
    c6_amended.2 120 1 ["G1", "E1"]⟩

/-! ## Claim C7: pass-through outside infill sections -/

/-- C7: a line processed while the section is not `INFILL` and that is not
the infill-begin marker leaves `writtenToFile` at zero, so whenever its
processing succeeds the only emitted output is the verbatim input line
(such lines may still update the last known position or the perimeter
set, but never the emitted text). -/
theorem c7_passthrough (cfg : Cfg) (st : PState) (line : String) (st' : PState)
    (outs : List OutLine) (h1 : st.sec ≠ Section.infill)
    (h2 : is_begin_infill_segment_line line = false)
    (h3 : processLine cfg st line = Except.ok (st', outs)) :
    outs = [OutLine.raw line] := by
  have hsec2 : (if is_end_inner_wall_line line then Section.nothing
      else if is_begin_inner_wall_line line then Section.innerWall else st.sec) ≠
      Section.infill := by
    split
    · intro hx; exact Section.noConfusion hx
    · split
      · intro hx; exact Section.noConfusion hx
      · exact h1
  simp only [processLine, h2, Bool.false_eq_true, if_false] at h3
  cases hcw : collectWall
      (if is_begin_inner_wall_line line then Section.innerWall else st.sec)
      (if is_begin_layer_line line then some [] else st.perim) st.lastPos line with
  | error e => rw [hcw] at h3; exact Except.noConfusion h3
  | ok perim1 =>
    rw [hcw] at h3
    dsimp only at h3
    rw [if_neg hsec2, if_neg (fun hand => hsec2 hand.1)] at h3
    dsimp only at h3
    cases hgx : (if (hasSub " X" line && hasSub " Y" line &&
        (hasSub "G1" line || hasSub "G0" line)) = true then getXY line
        else Except.ok st.lastPos) with
    | error e => rw [hgx] at h3; exact Except.noConfusion h3
    | ok lastPos2 =>
      rw [hgx] at h3
      simp only [Except.ok.injEq, Prod.mk.injEq] at h3
      simpa using h3.2.symm

/-- C7, witness on an unrecognized line in the initial state. -/
theorem c7_passthrough_witness :
    Section.nothing ≠ Section.infill ∧
    is_begin_infill_segment_line "hello" = false ∧
    ([OutLine.raw "hello"] : List OutLine) = [OutLine.raw "hello"] :=
  ⟨fun hx => Section.noConfusion hx, by with_unfolding_all rfl,
    c7_passthrough cfgSmall initialState "hello" initialState [OutLine.raw "hello"]
      (fun hx => Section.noConfusion hx) (by with_unfolding_all rfl)
      (by with_unfolding_all rfl)⟩

/-! ## Claim C8: small-segments mode beyond the gradient thickness -/

/-- C8, counterexample.  The claim says a small-segments move whose
midpoint is farther than the thickness from every wall is rewritten with
extrusion `E * minFlow/100`.  In fact the branch only rewrites when the
distance is strictly below the thickness: at distance `19/2 ≥ 4` the line
is passed through verbatim, and its unchanged extrusion `1` differs from
`1 * (minFlow/100) = 1/2`. -/
theorem c8_counterexample :
    processLine cfgSmall ⟨Section.infill, ⟨0, 0⟩, some [wallSeg]⟩ "G1 X1 Y0 E1" =
      Except.ok (⟨Section.infill, ⟨1, 0⟩, some [wallSeg]⟩, [OutLine.raw "G1 X1 Y0 E1"]) ∧
    min_distance_from_segment ⟨⟨0, 0⟩, ⟨1, 0⟩⟩ [wallSeg] = Except.ok (19 / 2) ∧
    cfgSmall.gradientThickness ≤ 19 / 2 ∧
    (1 : ℚ) * (cfgSmall.minFlow / 100) ≠ 1 := by
  refine ⟨?_, ?_, ?_, ?_⟩
  · with_unfolding_all rfl
  · with_unfolding_all rfl
  · norm_num [cfgSmall]
  · norm_num [cfgSmall]

/-- C8, amended.  In small-segments mode a move whose midpoint distance to
the collected walls is at or beyond the gradient thickness is not
rewritten at all: the branch emits nothing and leaves `writtenToFile`
unset, so the original line is passed through unmodified. -/
theorem c8_amended (cfg : Cfg) (ps : List Segment) (lastP curP : Point2D)
    (toks : List String) (d : ℚ)
    (hd : min_distance_from_segment ⟨lastP, curP⟩ ps = Except.ok d)
    (hth : cfg.gradientThickness ≤ d) :
    smallProcess cfg (some ps) lastP curP toks = Except.ok ([], false) := by
  unfold smallProcess
  dsimp only
  rw [hd]
  dsimp only
  rw [if_neg (not_lt.mpr hth)]

/-- C8 amended, witness at midpoint distance `19/2` from the wall. -/
theorem c8_amended_witness :
    min_distance_from_segment ⟨⟨0, 0⟩, ⟨1, 0⟩⟩ [wallSeg] = Except.ok (19 / 2) ∧
    cfgSmall.gradientThickness ≤ 19 / 2 ∧
    smallProcess cfgSmall (some [wallSeg]) ⟨0, 0⟩ ⟨1, 0⟩ ["G1", "X1", "Y0", "E1"] =
      Except.ok ([], false) := by
  have hd : min_distance_from_segment ⟨⟨0, 0⟩, ⟨1, 0⟩⟩ [wallSeg] = Except.ok (19 / 2) := by
    with_unfolding_all rfl
  have hth : cfgSmall.gradientThickness ≤ 19 / 2 := by norm_num [cfgSmall]
  exact ⟨hd, hth,
    c8_amended cfgSmall [wallSeg] ⟨0, 0⟩ ⟨1, 0⟩ ["G1", "X1", "Y0", "E1"] (19 / 2) hd hth⟩

/-! ## Claim C9: negative coordinates abort coordinate parsing -/

/-- Searching for the leftmost occurrence of a letter skips any span not
containing it. -/
lemma findCapture_append (c : Char) :
    ∀ (pre rest : List Char), c ∉ pre →
      findCapture c (pre ++ rest) = findCapture c rest := by
  intro pre
  induction pre with
  | nil => intro rest _; rfl
  | cons a t ih =>
    intro rest h
    have hne : ¬(a = c) := fun he => h (he ▸ List.mem_cons_self a t)
    simp only [List.cons_append, findCapture]
    rw [if_neg hne]
    exact ih rest fun hm => h (List.mem_cons_of_mem a hm)

/-- C9: on any line in which the first `X` — or the first `Y` — is
immediately followed by a minus sign, the corresponding coordinate regex
`X(\d*\.?\d*)` / `Y(\d*\.?\d*)` matches with an empty capture group (the
regexes accept only unsigned decimals), `float("")` then raises, and
`getXY` returns an error instead of coordinates; consequently a move
line carrying a negative X or negative Y coordinate makes processing
abort, as the two concrete `processLine` runs show. -/
theorem c9_negative_coordinate (c : Char) (pre suf : List Char)
    (hc : c = 'X' ∨ c = 'Y') (hpre : c ∉ pre) :
    (findCapture c (pre ++ c :: '-' :: suf) = some [] ∧
     exceptOk (getXYChars (pre ++ c :: '-' :: suf)) = false) ∧
    processLine cfgSmall initialState "G1 X-5 Y2" = Except.error Err.valueErr ∧
    processLine cfgSmall initialState "G1 X5 Y-2" = Except.error Err.valueErr := by
  have hcap : findCapture c (pre ++ c :: '-' :: suf) = some [] := by
    rw [findCapture_append c pre (c :: '-' :: suf) hpre]
    simp only [findCapture, if_pos rfl]
    rfl
  refine ⟨⟨hcap, ?_⟩, by with_unfolding_all rfl, by with_unfolding_all rfl⟩
  unfold getXYChars
  rcases hc with hX | hY
  · subst hX
    rw [hcap]
    cases hy : findCapture 'Y' (pre ++ 'X' :: '-' :: suf) with
    | none => rfl
    | some ey => rfl
  · subst hY
    rw [hcap]
    cases hx : findCapture 'X' (pre ++ 'Y' :: '-' :: suf) with
    | none => rfl
    | some ex =>
      dsimp only
      cases hp : parseDecimal ex with
      | none => rfl
      | some vx => rfl

/-- C9, witness on the negative-Y move line `G1 X5 Y-2`. -/
theorem c9_negative_coordinate_witness :
    (('Y' : Char) = 'X' ∨ ('Y' : Char) = 'Y') ∧ 'Y' ∉ "G1 X5 ".toList ∧
    ((findCapture 'Y' ("G1 X5 ".toList ++ 'Y' :: '-' :: "2".toList) = some [] ∧
      exceptOk (getXYChars ("G1 X5 ".toList ++ 'Y' :: '-' :: "2".toList)) = false) ∧
     processLine cfgSmall initialState "G1 X-5 Y2" = Except.error Err.valueErr ∧
     processLine cfgSmall initialState "G1 X5 Y-2" = Except.error Err.valueErr) :=
  ⟨Or.inr rfl, by decide,
    c9_negative_coordinate 'Y' "G1 X5 ".toList "2".toList (Or.inr rfl) (by decide)⟩

end GradientInfill
